import Mathlib

/-!
Verification of the policy-gated checkout core (src/src/App.tsx, with the
earlier revision in src/unnamed/part_000).

The embedding models JavaScript numbers as rationals (the caller contract of the spec demands finite, non-negative amounts), JS Math.round as
floor (x + 1/2) over the rationals, and JS string comparison of "HH:MM"
strings as the lexicographic order on strings (identical to the JS order on
ASCII strings).  All definitions are translated from the source; the old
functions of the old revision carry an old prefix.
-/

/-- JS String.prototype.padStart(w, c): prepend copies of c until length w. -/
def padStart (s : String) (w : Nat) (c : Char) : String :=
  String.mk (List.replicate (w - s.length) c) ++ s

/-- The two-digit zero padding String(n).padStart(2, "0") used by hhmm and genRID. -/
def pad2 (n : Nat) : String := padStart (toString n) 2 '0'

/-- JS Math.round on a (finite) number: floor (x + 1/2). -/
def jsRound (q : ℚ) : ℤ := ⌊q + 1/2⌋

/-- hhmm(date) from App.tsx: the local time of day rendered as "HH:MM". -/
def hhmm (hour minute : Nat) : String := pad2 hour ++ ":" ++ pad2 minute

/-- Insertion-order deduplication, as JS Array.from(new Set(list)). -/
def dedupAux : List String → List String → List String
  | [], acc => acc.reverse
  | x :: xs, acc => if x ∈ acc then dedupAux xs acc else dedupAux xs (x :: acc)

/-- JS Array.from(new Set(list)): keep the first occurrence of each element. -/
def dedupFirst (l : List String) : List String := dedupAux l []

/-- A row of the policy matrix (type PolicyRow in src/unnamed/part_000;
the untyped rows of App.tsx have the same fields). -/
structure PolicyRow where
  version : String
  country : String
  use_case : String
  instrument : String
  chain : String
  allow : String
  max_txn_local : ℚ
  daily_cap_local : ℚ
  monthly_cap_local : ℚ
  local_currency : String
  time_window_local : String
  required_disclosures : List String
  kyc_level : String
  travel_rule_required : Bool
  sanctions_screen : Bool
  allowed_mccs : String
  fallback_on_fail : String
  effective_from : String
  effective_to : Option String
  approver : String
  notes : Option String
deriving DecidableEq, Repr

/-- The resolved basket-level snapshot (type PolicySnapshot in part_000). -/
structure PolicySnapshot where
  on_off : String
  max_per_txn_local : ℚ
  daily_cap_local : ℚ
  time_window_local : String
  required_disclosures : List String
  kyc_level : String
  travel_rule_applied : Bool
  sanctions_screen : String
deriving DecidableEq, Repr

/-- POLICY_MATRIX from App.tsx (identical in part_000). -/
def POLICY_MATRIX : List PolicyRow :=
  [ { version := "JP-1.4", country := "JP", use_case := "Domestic Retail",
      instrument := "Tochika", chain := "issuer-ledger", allow := "ON",
      max_txn_local := 15000, daily_cap_local := 30000, monthly_cap_local := 90000,
      local_currency := "JPY", time_window_local := "09:00-20:00",
      required_disclosures := ["JP-DISC-01", "JP-DISC-03"], kyc_level := "partner",
      travel_rule_required := true, sanctions_screen := true,
      allowed_mccs := "5311|5732|5812", fallback_on_fail := "Card",
      effective_from := "2025-08-01", effective_to := none,
      approver := "Risk&Compliance",
      notes := some "Fail-closed outside window; receipts embed policy snapshot" },
    { version := "JP-1.4", country := "JP", use_case := "Domestic Retail",
      instrument := "USDC", chain := "allowlisted", allow := "ON",
      max_txn_local := 5000, daily_cap_local := 15000, monthly_cap_local := 45000,
      local_currency := "JPY", time_window_local := "09:00-20:00",
      required_disclosures := ["JP-DISC-01", "JP-DISC-04"], kyc_level := "partner",
      travel_rule_required := true, sanctions_screen := true,
      allowed_mccs := "5311|5732|5812", fallback_on_fail := "Card",
      effective_from := "2025-08-01", effective_to := none,
      approver := "Risk&Compliance",
      notes := some "USDC only via licensed aggregator; merchant settles in JPY" },
    { version := "HK-0.9", country := "HK", use_case := "Inbound (JP to HK)",
      instrument := "USDC", chain := "allowlisted", allow := "OFF",
      max_txn_local := 0, daily_cap_local := 0, monthly_cap_local := 0,
      local_currency := "HKD", time_window_local := "10:00-18:00",
      required_disclosures := ["HK-DISC-02"], kyc_level := "partner",
      travel_rule_required := true, sanctions_screen := true,
      allowed_mccs := "*", fallback_on_fail := "Card",
      effective_from := "2025-08-01", effective_to := none,
      approver := "Legal",
      notes := some "HK regime evolving; use two-leg fiat to HKD payout" },
    { version := "JP-1.4", country := "JP", use_case := "Digital Vouchers",
      instrument := "Points", chain := "program-api", allow := "ON",
      max_txn_local := 8000, daily_cap_local := 15000, monthly_cap_local := 45000,
      local_currency := "JPY", time_window_local := "00:00-24:00",
      required_disclosures := ["JP-DISC-02"], kyc_level := "none",
      travel_rule_required := false, sanctions_screen := false,
      allowed_mccs := "5812|5942", fallback_on_fail := "Card",
      effective_from := "2025-08-01", effective_to := none,
      approver := "Product",
      notes := some "Points only where program T&Cs allow; no cash-out unless permitted" } ]

/-- POLICY_MATRIX.find(r equal on country and instrument), as in the jpTochika
and jpUsdc lookups of App.tsx. -/
def findRow (rows : List PolicyRow) (country instrument : String) : Option PolicyRow :=
  rows.find? (fun r => r.country == country && r.instrument == instrument)

/-- Truthiness of (row && row.allow === "ON") for an optional row. -/
def rowAllowsOn : Option PolicyRow → Bool
  | some r => r.allow == "ON"
  | none => false

/-- The policyApplied object of App.tsx, generalised over the row table and the
two looked-up (country, instrument) pairs; the component instantiates it at
("JP", "Tochika") and ("JP", "USDC").  Optional chaining with a default
(row?.field ?? d) becomes Option.map followed by getD. -/
def resolveSnapshot (rows : List PolicyRow) (country inst1 inst2 : String) : PolicySnapshot :=
  let row1 := findRow rows country inst1
  let row2 := findRow rows country inst2
  { on_off := if rowAllowsOn row1 || rowAllowsOn row2 then "ON" else "OFF",
    max_per_txn_local :=
      max ((row1.map PolicyRow.max_txn_local).getD 0) ((row2.map PolicyRow.max_txn_local).getD 0),
    daily_cap_local :=
      max ((row1.map PolicyRow.daily_cap_local).getD 0) ((row2.map PolicyRow.daily_cap_local).getD 0),
    time_window_local := (row1.map PolicyRow.time_window_local).getD "09:00-20:00",
    required_disclosures :=
      dedupFirst (((row1.map PolicyRow.required_disclosures).getD []) ++
        ((row2.map PolicyRow.required_disclosures).getD [])),
    kyc_level := "partner",
    travel_rule_applied := true,
    sanctions_screen := "pass" }

/-- policyApplied as actually computed by the App component: the lookups are
hard-coded to the JP Tochika and JP USDC rows. -/
def policyApplied (rows : List PolicyRow) : PolicySnapshot :=
  resolveSnapshot rows "JP" "Tochika" "USDC"

/-- Strict lexicographic comparison of character lists, as JS compares the
code units of two strings. -/
def lexLt : List Char → List Char → Bool
  | [], [] => false
  | [], _ :: _ => true
  | _ :: _, [] => false
  | c :: cs, d :: ds => if c = d then lexLt cs ds else decide (c < d)

/-- JS string comparison a less-or-equal b, i.e. not (b less-than a). -/
def jsLe (a b : String) : Bool := !(lexLt b.data a.data)

/-- Accumulator loop behind the JS split(sep) for a one-character separator. -/
def splitCharAux (sep : Char) : List Char → List Char → List String
  | [], acc => [String.mk acc.reverse]
  | c :: cs, acc =>
    if c = sep then String.mk acc.reverse :: splitCharAux sep cs []
    else splitCharAux sep cs (c :: acc)

/-- JS window.split(sep) on every occurrence of the one-character separator. -/
def jsSplit (s : String) (sep : Char) : List String := splitCharAux sep s.data []

/-- withinWindow(now, window) from App.tsx: split the window on "-" and compare
the "HH:MM" rendering of now lexicographically against both bounds, inclusive.
In JS a relational comparison against a missing bound is false. -/
def withinWindow (hour minute : Nat) (window : String) : Bool :=
  match jsSplit window '-' with
  | s :: e :: _ => jsLe s (hhmm hour minute) && jsLe (hhmm hour minute) e
  | _ => false

/-- The windowOK constant of the component. -/
def windowOK (hour minute : Nat) (snap : PolicySnapshot) : Bool :=
  withinWindow hour minute snap.time_window_local

/-- perTxnOK: totalJPY within the per-transaction cap, or a zero cap. -/
def perTxnOK (total : ℚ) (snap : PolicySnapshot) : Bool :=
  decide (total ≤ snap.max_per_txn_local) || decide (snap.max_per_txn_local = 0)

/-- policyOK: policy switched on, inside the window, under the cap. -/
def policyOK (snap : PolicySnapshot) (total : ℚ) (hour minute : Nat) : Bool :=
  (snap.on_off == "ON") && windowOK hour minute snap && perTxnOK total snap

/-- holdValid of App.tsx.  quoteStartMs is the lock timestamp in milliseconds
(null before any lock), wallNowMs the current wall clock in milliseconds (the
code reads new Date(), independent of the demo time input).  When the quote is
locked but no start timestamp exists the JS condition is falsy, hence false. -/
def holdValid (quoteLocked : Bool) (quoteStartMs : Option ℚ) (wallNowMs holdSec : ℚ) : Bool :=
  !quoteLocked ||
    (match quoteStartMs with
     | some s => decide ((wallNowMs - s) / 1000 ≤ holdSec)
     | none => false)

/-- slippageValid of App.tsx: relative rate move in basis points within bound. -/
def slippageValid (quoteLocked : Bool) (quoteRate : Option ℚ) (rateUSDCJPY slippageBps : ℚ) : Bool :=
  !quoteLocked ||
    (match quoteRate with
     | some qr => decide (|(rateUSDCJPY - qr) / qr| * 10000 ≤ slippageBps)
     | none => false)

/-- quoteOK of App.tsx. -/
def quoteOK (quoteLocked : Bool) (quoteStartMs quoteRate : Option ℚ)
    (wallNowMs holdSec rateUSDCJPY slippageBps : ℚ) : Bool :=
  holdValid quoteLocked quoteStartMs wallNowMs holdSec &&
    slippageValid quoteLocked quoteRate rateUSDCJPY slippageBps

/-- The closed enumeration behind the gateMessage strings of App.tsx. -/
inductive GateReason where
  | approved
  | policyDisabled
  | outsideWindow
  | capExceeded
  | policyRule
  | quoteExpired
  | slippageBreached
deriving DecidableEq, Repr

/-- gateMessage of App.tsx as a decision value: the nested conditionals with
each message replaced by its reason ("Blocked: Policy rule." is the
otherwise-unreachable policyRule constructor).  hv and sv are the computed
holdValid and slippageValid booleans; quoteOK is their conjunction. -/
def gateMessageD (snap : PolicySnapshot) (total : ℚ) (hour minute : Nat)
    (hv sv : Bool) : GateReason :=
  if !policyOK snap total hour minute then
    (if snap.on_off == "OFF" then .policyDisabled
     else if !windowOK hour minute snap then .outsideWindow
     else if !perTxnOK total snap then .capExceeded
     else .policyRule)
  else
    (if !(hv && sv) then (if !hv then .quoteExpired else .slippageBreached)
     else .approved)

/-- The three editable tender amounts and the current rate of the component. -/
structure CheckoutState where
  tochikaJPY : ℚ
  usdcAmt : ℚ
  cardJPY : ℚ
  rateUSDCJPY : ℚ
deriving DecidableEq, Repr

/-- totalJPY of App.tsx: Math.round((tochika + usdc * rate + card) * 100) / 100. -/
def totalJPY (st : CheckoutState) : ℚ :=
  (jsRound ((st.tochikaJPY + st.usdcAmt * st.rateUSDCJPY + st.cardJPY) * 100) : ℚ) / 100

/-- The trigger condition of the auto-fallback effect of App.tsx. -/
def fallbackTrigger (autoFallback quoteLocked quoteOKv : Bool) (st : CheckoutState) : Bool :=
  autoFallback && quoteLocked && !quoteOKv && decide (0 < st.usdcAmt)

/-- The auto-fallback effect body of App.tsx: when the trigger holds, round the
USDC leg into JPY, add it to the card leg (rounding the sum as the setter
does), and zero the USDC leg; otherwise leave the state unchanged. -/
def applyFallback (autoFallback quoteLocked quoteOKv : Bool) (st : CheckoutState) :
    CheckoutState :=
  if fallbackTrigger autoFallback quoteLocked quoteOKv st then
    { st with
      cardJPY := (jsRound (st.cardJPY + (jsRound (st.usdcAmt * st.rateUSDCJPY) : ℚ)) : ℚ),
      usdcAmt := 0 }
  else st

/-- genRID(country, now, seq) from App.tsx, with the date already split into
its components: year unpadded, month (1-based) and day zero-padded to two
digits, sequence zero-padded to six. -/
def genRID (country : String) (year month day : Nat) (seq : Nat) : String :=
  "RID-" ++ country ++ "-" ++ toString year ++ pad2 month ++ pad2 day ++ "-" ++
    padStart (toString seq) 6 '0'

/-- The rid constant of the component: genRID(jurisdiction, now, 45). -/
def appRid (jurisdiction : String) (year month day : Nat) : String :=
  genRID jurisdiction year month day 45

/-- The payout object of receiptJSON together with its reconciliation id:
gross_jpy is totalJPY, fees_jpy the fixed 35, net_jpy = Math.round(totalJPY - 35). -/
structure ReceiptView where
  reconciliation_id : String
  gross_jpy : ℚ
  fees_jpy : ℚ
  net_jpy : ℤ
deriving DecidableEq, Repr

/-- The corresponding columns of the reconCSV row: RID, Amount_Gross =
Math.round(totalJPY), Amount_Net = Math.round(totalJPY - 35) (both rendered
with toString, kept here as their integer values). -/
structure ReconView where
  rid : String
  amount_gross : ℤ
  amount_net : ℤ
deriving DecidableEq, Repr

/-- The receipt-side shared fields built by the component for one evaluation. -/
def buildReceipt (jurisdiction : String) (year month day : Nat) (st : CheckoutState) :
    ReceiptView :=
  { reconciliation_id := appRid jurisdiction year month day,
    gross_jpy := totalJPY st,
    fees_jpy := 35,
    net_jpy := jsRound (totalJPY st - 35) }

/-- The reconciliation-side shared fields built by the component for the same
evaluation. -/
def buildRecon (jurisdiction : String) (year month day : Nat) (st : CheckoutState) :
    ReconView :=
  { rid := appRid jurisdiction year month day,
    amount_gross := jsRound (totalJPY st),
    amount_net := jsRound (totalJPY st - 35) }

/-- policyApplied of the earlier revision (src/unnamed/part_000): identical
merge logic except that on_off is written with optional chaining
(row?.allow === "ON", i.e. a mapped comparison defaulting to false). -/
def oldPolicyApplied (rows : List PolicyRow) : PolicySnapshot :=
  let jpTochika := findRow rows "JP" "Tochika"
  let jpUsdc := findRow rows "JP" "USDC"
  { on_off :=
      if ((jpTochika.map (fun r => r.allow == "ON")).getD false) ||
          ((jpUsdc.map (fun r => r.allow == "ON")).getD false) then "ON" else "OFF",
    max_per_txn_local :=
      max ((jpTochika.map PolicyRow.max_txn_local).getD 0)
        ((jpUsdc.map PolicyRow.max_txn_local).getD 0),
    daily_cap_local :=
      max ((jpTochika.map PolicyRow.daily_cap_local).getD 0)
        ((jpUsdc.map PolicyRow.daily_cap_local).getD 0),
    time_window_local := (jpTochika.map PolicyRow.time_window_local).getD "09:00-20:00",
    required_disclosures :=
      dedupFirst (((jpTochika.map PolicyRow.required_disclosures).getD []) ++
        ((jpUsdc.map PolicyRow.required_disclosures).getD [])),
    kyc_level := "partner",
    travel_rule_applied := true,
    sanctions_screen := "pass" }

/-- gateReason of the earlier revision as a decision value.  Its helper
functions hhmm, withinWindow, and the windowOK / perTxnOK / allowOverall
constants are textually identical to those of App.tsx (allowOverall is
policyOK), so they are shared; the "Unknown." message is the unreachable
policyRule constructor. -/
def oldGateReasonD (snap : PolicySnapshot) (total : ℚ) (hour minute : Nat) : GateReason :=
  if policyOK snap total hour minute then .approved
  else if snap.on_off == "OFF" then .policyDisabled
  else if !windowOK hour minute snap then .outsideWindow
  else if !perTxnOK total snap then .capExceeded
  else .policyRule

/-- C1: a resolve call in which no policy row matches the requested
jurisdiction and instrument set returns a fail-closed snapshot: on/off is
"OFF" and both caps are 0; being a total function, it never throws. -/
theorem c1_resolver_fail_closed (rows : List PolicyRow) (country inst1 inst2 : String)
    (h : ∀ r ∈ rows, ¬(r.country = country ∧ (r.instrument = inst1 ∨ r.instrument = inst2))) :
    (resolveSnapshot rows country inst1 inst2).on_off = "OFF" ∧
    (resolveSnapshot rows country inst1 inst2).max_per_txn_local = 0 ∧
    (resolveSnapshot rows country inst1 inst2).daily_cap_local = 0 := by
  have h1 : findRow rows country inst1 = none := by
    simp only [findRow, List.find?_eq_none, Bool.and_eq_true, beq_iff_eq, not_and]
    intro r hr hc hi
    exact h r hr ⟨hc, Or.inl hi⟩
  have h2 : findRow rows country inst2 = none := by
    simp only [findRow, List.find?_eq_none, Bool.and_eq_true, beq_iff_eq, not_and]
    intro r hr hc hi
    exact h r hr ⟨hc, Or.inr hi⟩
  refine ⟨?_, ?_, ?_⟩ <;> simp [resolveSnapshot, h1, h2, rowAllowsOn]

/-- Witness for C1: the matrix holds no HK row for Tochika or Points, and the
resolver indeed returns the OFF snapshot with zero caps there. -/
theorem c1_resolver_fail_closed_witness :
    (resolveSnapshot POLICY_MATRIX "HK" "Tochika" "Points").on_off = "OFF" ∧
    (resolveSnapshot POLICY_MATRIX "HK" "Tochika" "Points").max_per_txn_local = 0 ∧
    (resolveSnapshot POLICY_MATRIX "HK" "Tochika" "Points").daily_cap_local = 0 :=
  c1_resolver_fail_closed POLICY_MATRIX "HK" "Tochika" "Points" (by decide)

/-- C6: a per-transaction cap of 0 is an explicit escape value under which the
cap check always passes, and a positive cap C passes exactly the totals t
with t at most C. -/
theorem c6_cap_check (snap : PolicySnapshot) (t : ℚ) :
    (snap.max_per_txn_local = 0 → perTxnOK t snap = true) ∧
    (0 < snap.max_per_txn_local →
      (perTxnOK t snap = true ↔ t ≤ snap.max_per_txn_local)) := by
  constructor
  · intro h
    simp [perTxnOK, h]
  · intro h
    simp [perTxnOK, ne_of_gt h]

/-- Witness for C6: with the zero-cap HK snapshot any total passes, and with
the JP cap of 15000 a total of 10000 passes because it is below the cap. -/
theorem c6_cap_check_witness :
    perTxnOK 999999 (resolveSnapshot POLICY_MATRIX "HK" "Tochika" "Points") = true ∧
    perTxnOK 10000 (policyApplied POLICY_MATRIX) = true := by
  constructor
  · exact (c6_cap_check (resolveSnapshot POLICY_MATRIX "HK" "Tochika" "Points") 999999).1
      (by decide)
  · exact ((c6_cap_check (policyApplied POLICY_MATRIX) 10000).2 (by decide)).mpr (by decide)

/-- C2: the gate decision characterised check by check.  The Blocked reasons
are mutually exclusive (the decision is a single value and each reason below
has an exact characterisation), the precedence is PolicyDisabled, then
OutsideWindow, then CapExceeded, then QuoteExpired, then SlippageBreached,
the quote reasons require the three policy checks to pass, the first failing
condition wins, and with nothing failing the decision is Approved; the
leftover "Policy rule" message is unreachable. -/
theorem c2_reason_precedence (snap : PolicySnapshot) (total : ℚ) (hour minute : Nat)
    (hv sv : Bool) (hon : snap.on_off = "ON" ∨ snap.on_off = "OFF") :
    (gateMessageD snap total hour minute hv sv = .policyDisabled ↔ snap.on_off = "OFF") ∧
    (gateMessageD snap total hour minute hv sv = .outsideWindow ↔
      snap.on_off = "ON" ∧ windowOK hour minute snap = false) ∧
    (gateMessageD snap total hour minute hv sv = .capExceeded ↔
      snap.on_off = "ON" ∧ windowOK hour minute snap = true ∧ perTxnOK total snap = false) ∧
    (gateMessageD snap total hour minute hv sv = .quoteExpired ↔
      policyOK snap total hour minute = true ∧ hv = false) ∧
    (gateMessageD snap total hour minute hv sv = .slippageBreached ↔
      policyOK snap total hour minute = true ∧ hv = true ∧ sv = false) ∧
    (gateMessageD snap total hour minute hv sv = .approved ↔
      policyOK snap total hour minute = true ∧ hv = true ∧ sv = true) ∧
    gateMessageD snap total hour minute hv sv ≠ .policyRule := by
  rcases hon with h | h <;>
    cases hw : windowOK hour minute snap <;>
      cases hp : perTxnOK total snap <;>
        cases hv <;> cases sv <;>
          simp [gateMessageD, policyOK, h, hw, hp]

/-- Witness for C2: with the JP snapshot, a total of 10000 at 12:00 and a
valid quote, the decision is Approved. -/
theorem c2_reason_precedence_witness :
    gateMessageD (policyApplied POLICY_MATRIX) 10000 12 0 true true = .approved :=
  ((c2_reason_precedence (policyApplied POLICY_MATRIX) 10000 12 0 true true
      (Or.inl (by decide))).2.2.2.2.2.1).mpr (by decide)

/-- lexLt decides the lexicographic strict order on character lists. -/
theorem lexLt_iff (a b : List Char) : lexLt a b = true ↔ List.Lex (· < ·) a b := by
  induction a generalizing b with
  | nil =>
    cases b with
    | nil => simp [lexLt, List.Lex.not_nil_right]
    | cons d ds => simpa [lexLt] using List.Lex.nil
  | cons c cs ih =>
    cases b with
    | nil => simp [lexLt, List.Lex.not_nil_right]
    | cons d ds =>
      by_cases hcd : c = d
      · subst hcd
        simp [lexLt, ih, List.Lex.cons_iff]
      · simp only [lexLt, if_neg hcd, decide_eq_true_eq]
        constructor
        · exact fun h => List.Lex.rel h
        · intro h
          cases h with
          | cons _ => exact absurd rfl hcd
          | rel h => exact h

/-- jsLe decides the inclusive lexicographic string order. -/
theorem jsLe_iff (a b : String) : jsLe a b = true ↔ a ≤ b := by
  have hlt : (b < a) ↔ List.Lex (· < ·) b.data a.data := String.lt_iff_toList_lt
  constructor
  · intro h
    have hfalse : lexLt b.data a.data = false := by
      simpa [jsLe] using h
    refine not_lt.mp (fun hba => ?_)
    have := (lexLt_iff b.data a.data).mpr (hlt.mp hba)
    rw [hfalse] at this
    exact Bool.false_ne_true this
  · intro h
    have : ¬ List.Lex (· < ·) b.data a.data := fun hl =>
      absurd (hlt.mpr hl) (not_lt.mpr h)
    have hfalse : lexLt b.data a.data = false := by
      cases hl : lexLt b.data a.data with
      | false => rfl
      | true => exact absurd ((lexLt_iff b.data a.data).mp hl) this
    simp [jsLe, hfalse]

/-- C5: the window check compares only the "HH:MM" rendering of the local
time of day, lexicographically and inclusively on both bounds; inside the
window the check passes (and the decision is never OutsideWindow), outside it
the decision is Blocked(OutsideWindow); and the window "00:00-24:00" passes at
every time of day. -/
theorem c5_time_window (snap : PolicySnapshot) (total : ℚ) (hour minute : Nat)
    (hv sv : Bool) (s e : String)
    (hsplit : jsSplit snap.time_window_local '-' = [s, e])
    (hon : snap.on_off = "ON") :
    (windowOK hour minute snap = true ↔
      s ≤ hhmm hour minute ∧ hhmm hour minute ≤ e) ∧
    (windowOK hour minute snap = false →
      gateMessageD snap total hour minute hv sv = .outsideWindow) ∧
    (windowOK hour minute snap = true →
      gateMessageD snap total hour minute hv sv ≠ .outsideWindow) ∧
    (∀ h, h < 24 → ∀ m, m < 60 → withinWindow h m "00:00-24:00" = true) := by
  refine ⟨?_, ?_, ?_, ?_⟩
  · unfold windowOK withinWindow
    rw [hsplit]
    simp [jsLe_iff]
  · intro hw
    simp [gateMessageD, policyOK, hon, hw]
  · intro hw
    cases hp : perTxnOK total snap <;> cases hv <;> cases sv <;>
      simp [gateMessageD, policyOK, hon, hw, hp]
  · decide

/-- Witness for C5: at 21:30 the JP window 09:00-20:00 is exceeded and the
decision is Blocked(OutsideWindow). -/
theorem c5_time_window_witness :
    gateMessageD (policyApplied POLICY_MATRIX) 10000 21 30 true true = .outsideWindow :=
  (c5_time_window (policyApplied POLICY_MATRIX) 10000 21 30 true true "09:00" "20:00"
      (by decide) (by decide)).2.1 (by decide)

/-- C4: quote validity is the conjunction quoteOK = holdValid and
slippageValid; an unlocked quote is always valid; when locked with a lock
timestamp, holdValid holds exactly when the elapsed time in seconds is at most
the hold window; when locked with a positive locked rate, slippageValid holds
exactly when the absolute relative rate move in basis points is within the
bound.  All three are pure functions of the passed state: reading them
mutates nothing by construction. -/
theorem c4_quote_validity (quoteLocked : Bool) (quoteStartMs quoteRate : Option ℚ)
    (wallNowMs holdSec rateUSDCJPY slippageBps : ℚ) :
    (quoteOK quoteLocked quoteStartMs quoteRate wallNowMs holdSec rateUSDCJPY slippageBps =
      (holdValid quoteLocked quoteStartMs wallNowMs holdSec &&
        slippageValid quoteLocked quoteRate rateUSDCJPY slippageBps)) ∧
    (quoteLocked = false →
      holdValid quoteLocked quoteStartMs wallNowMs holdSec = true ∧
      slippageValid quoteLocked quoteRate rateUSDCJPY slippageBps = true ∧
      quoteOK quoteLocked quoteStartMs quoteRate wallNowMs holdSec rateUSDCJPY slippageBps
        = true) ∧
    (quoteLocked = true → ∀ s, quoteStartMs = some s →
      (holdValid quoteLocked quoteStartMs wallNowMs holdSec = true ↔
        (wallNowMs - s) / 1000 ≤ holdSec)) ∧
    (quoteLocked = true → ∀ qr, quoteRate = some qr → 0 < qr →
      (slippageValid quoteLocked quoteRate rateUSDCJPY slippageBps = true ↔
        |rateUSDCJPY - qr| / qr * 10000 ≤ slippageBps)) := by
  refine ⟨rfl, ?_, ?_, ?_⟩
  · intro h
    subst h
    exact ⟨rfl, rfl, rfl⟩
  · intro h s hs
    subst h hs
    simp [holdValid]
  · intro h qr hqr hpos
    subst h hqr
    have habs : |(rateUSDCJPY - qr) / qr| = |rateUSDCJPY - qr| / qr := by
      rw [abs_div, abs_of_pos hpos]
    simp [slippageValid, habs]

/-- Witness for C4: a quote locked at rate 150 with the rate moved to 151 and
slippage bound 50 bps is outside the bound (about 66.7 bps), while the hold
window of 90 s with 10 s elapsed is still valid. -/
theorem c4_quote_validity_witness :
    (holdValid true (some 0) 10000 90 = true) ∧
    (slippageValid true (some 150) 151 50 = false) := by
  constructor
  · exact ((c4_quote_validity true (some 0) (some 150) 10000 90 151 50).2.2.1
      rfl 0 rfl).mpr (by norm_num)
  · have h := (c4_quote_validity true (some 0) (some 150) 10000 90 151 50).2.2.2
      rfl 150 rfl (by norm_num)
    cases hsv : slippageValid true (some 150) 151 50 with
    | false => rfl
    | true =>
      have := h.mp hsv
      norm_num at this

/-- Math.round never exceeds its argument by more than a half. -/
theorem jsRound_le (q : ℚ) : (jsRound q : ℚ) ≤ q + 1/2 := Int.floor_le (q + 1/2)

/-- Math.round never falls short of its argument by a half or more. -/
theorem lt_jsRound (q : ℚ) : q - 1/2 < (jsRound q : ℚ) := by
  have h := Int.lt_floor_add_one (q + 1/2)
  unfold jsRound
  linarith

/-- Rounding two rationals at most 100 apart (strictly above -100) yields
integers at most 100 apart. -/
theorem jsRound_diff_le (A B : ℚ) (h1 : B - A ≤ 100) (h2 : -100 < B - A) :
    |((jsRound B - jsRound A : ℤ) : ℚ)| ≤ 100 := by
  have hb1 := jsRound_le B
  have hb2 := lt_jsRound B
  have ha1 := jsRound_le A
  have ha2 := lt_jsRound A
  have hu : jsRound B - jsRound A ≤ 100 := by
    have hq : ((jsRound B - jsRound A : ℤ) : ℚ) < 101 := by push_cast; linarith
    have hz : jsRound B - jsRound A < (101 : ℤ) := by exact_mod_cast hq
    omega
  have hl : -(100 : ℤ) ≤ jsRound B - jsRound A := by
    have hq : ((jsRound A - jsRound B : ℤ) : ℚ) < 101 := by push_cast; linarith
    have hz : jsRound A - jsRound B < (101 : ℤ) := by exact_mod_cast hq
    omega
  have : |jsRound B - jsRound A| ≤ (100 : ℤ) := abs_le.mpr ⟨by omega, hu⟩
  exact_mod_cast this

/-- C3: the auto-fallback transform fires exactly on its trigger (quote
locked, quoteOK false, auto-fallback enabled, positive variable amount), in
which case it adds round(variableAmount times currentRate) to the card leg
and zeroes the variable leg; otherwise it leaves the state unchanged.  The
rounded total moves by at most one JPY, and applying the transform to its own
output changes nothing (the trigger cannot re-fire on a zeroed leg). -/
theorem c3_fallback_transform (af ql qv : Bool) (st : CheckoutState) :
    (fallbackTrigger af ql qv st = true →
      applyFallback af ql qv st =
        { st with
          cardJPY := (jsRound (st.cardJPY + (jsRound (st.usdcAmt * st.rateUSDCJPY) : ℚ)) : ℚ),
          usdcAmt := 0 }) ∧
    (fallbackTrigger af ql qv st = false → applyFallback af ql qv st = st) ∧
    (fallbackTrigger af ql qv st = true ↔
      af = true ∧ ql = true ∧ qv = false ∧ 0 < st.usdcAmt) ∧
    |totalJPY (applyFallback af ql qv st) - totalJPY st| ≤ 1 ∧
    applyFallback af ql qv (applyFallback af ql qv st) = applyFallback af ql qv st := by
  refine ⟨?_, ?_, ?_, ?_, ?_⟩
  · intro h
    simp [applyFallback, h]
  · intro h
    simp [applyFallback, h]
  · simp [fallbackTrigger, and_assoc]
  · by_cases h : fallbackTrigger af ql qv st = true
    · have hfb : applyFallback af ql qv st =
          { st with
            cardJPY := (jsRound (st.cardJPY + (jsRound (st.usdcAmt * st.rateUSDCJPY) : ℚ)) : ℚ),
            usdcAmt := 0 } := by simp [applyFallback, h]
      rw [hfb]
      set t := st.tochikaJPY
      set u := st.usdcAmt
      set c := st.cardJPY
      set r := st.rateUSDCJPY
      have hr1a := jsRound_le (u * r)
      have hr1b := lt_jsRound (u * r)
      have hr2a := jsRound_le (c + (jsRound (u * r) : ℚ))
      have hr2b := lt_jsRound (c + (jsRound (u * r) : ℚ))
      set c' : ℚ := (jsRound (c + (jsRound (u * r) : ℚ)) : ℚ)
      have hdiff := jsRound_diff_le ((t + u * r + c) * 100) ((t + 0 * r + c') * 100)
        (by linarith) (by linarith)
      show |(jsRound ((t + 0 * r + c') * 100) : ℚ) / 100 -
        (jsRound ((t + u * r + c) * 100) : ℚ) / 100| ≤ 1
      rw [div_sub_div_same, abs_div]
      rw [show ((jsRound ((t + 0 * r + c') * 100) : ℚ) - (jsRound ((t + u * r + c) * 100) : ℚ)) =
        ((jsRound ((t + 0 * r + c') * 100) - jsRound ((t + u * r + c) * 100) : ℤ) : ℚ) by
          push_cast; ring]
      have h100 : |(100 : ℚ)| = 100 := by norm_num
      rw [h100]
      linarith [hdiff]
    · have hff : fallbackTrigger af ql qv st = false := by
        simpa using h
      simp [applyFallback, hff]
  · by_cases h : fallbackTrigger af ql qv st = true
    · have hfb : applyFallback af ql qv st =
          { st with
            cardJPY := (jsRound (st.cardJPY + (jsRound (st.usdcAmt * st.rateUSDCJPY) : ℚ)) : ℚ),
            usdcAmt := 0 } := by simp [applyFallback, h]
      rw [hfb]
      have hnot : fallbackTrigger af ql qv
          { st with
            cardJPY := (jsRound (st.cardJPY + (jsRound (st.usdcAmt * st.rateUSDCJPY) : ℚ)) : ℚ),
            usdcAmt := 0 } = false := by
        simp [fallbackTrigger]
      simp [applyFallback, hnot]
    · have hff : fallbackTrigger af ql qv st = false := by
        simpa using h
      simp [applyFallback, hff]

/-- Witness for C3: with the quote locked and breached, auto-fallback on, a
20 USDC leg at rate 150.75 becomes 3015 JPY added to the 500 JPY card leg
(3515 JPY) with the USDC leg zeroed, and the total moves by at most one. -/
theorem c3_fallback_transform_witness :
    applyFallback true true false ⟨8000, 20, 500, 603/4⟩ = ⟨8000, 0, 3515, 603/4⟩ ∧
    |totalJPY (applyFallback true true false ⟨8000, 20, 500, 603/4⟩) -
      totalJPY ⟨8000, 20, 500, 603/4⟩| ≤ 1 := by
  constructor
  · have h := (c3_fallback_transform true true false ⟨8000, 20, 500, 603/4⟩).1 (by decide)
    rw [h]
    norm_num [jsRound, CheckoutState.mk.injEq]
  · exact (c3_fallback_transform true true false ⟨8000, 20, 500, 603/4⟩).2.2.2.1

/-- Counterexample for C7: two different checkout contexts (gross totals
11515 and 100) evaluated the same day in the same jurisdiction receive the
same RID, because the sequence number is the constant 45 rather than
monotonically assigned — the RID is not unique per checkout context. -/
theorem c7_rid_not_unique :
    (buildReceipt "JP" 2025 8 27 ⟨8000, 20, 500, 603/4⟩).gross_jpy ≠
      (buildReceipt "JP" 2025 8 27 ⟨100, 0, 0, 603/4⟩).gross_jpy ∧
    (buildReceipt "JP" 2025 8 27 ⟨8000, 20, 500, 603/4⟩).reconciliation_id =
      (buildReceipt "JP" 2025 8 27 ⟨100, 0, 0, 603/4⟩).reconciliation_id := by
  constructor
  · norm_num [buildReceipt, totalJPY, jsRound]
  · rfl

/-- C7 as amended: every generated RID has the shape
RID-(jurisdiction)-(year month day)-(fixed six-digit sequence 000045), the
identical string appears in the receipt and the reconciliation record of one
evaluation, and the RID depends only on jurisdiction and date (so distinct
contexts on the same day share it). -/
theorem c7_rid_format (jurisdiction : String) (year month day : Nat)
    (st1 st2 : CheckoutState) :
    (buildReceipt jurisdiction year month day st1).reconciliation_id =
      "RID-" ++ jurisdiction ++ "-" ++ toString year ++ pad2 month ++ pad2 day ++ "-" ++
        "000045" ∧
    (buildRecon jurisdiction year month day st1).rid =
      (buildReceipt jurisdiction year month day st1).reconciliation_id ∧
    (buildReceipt jurisdiction year month day st1).reconciliation_id =
      (buildReceipt jurisdiction year month day st2).reconciliation_id ∧
    appRid "JP" 2025 8 27 = "RID-JP-20250827-000045" := by
  have h45 : padStart (toString 45) 6 '0' = "000045" := by decide
  refine ⟨?_, rfl, rfl, by decide⟩
  simp [buildReceipt, appRid, genRID, h45]

/-- Counterexample for C8: with a single USDC tender of 1 at rate 150.75 the
gross of the receipt is 150.75 while the gross of the reconciliation record is the
rounded 151 — the gross totals of the two views are not identical. -/
theorem c8_gross_mismatch :
    (buildReceipt "JP" 2025 8 27 ⟨0, 1, 0, 603/4⟩).gross_jpy ≠
      ((buildRecon "JP" 2025 8 27 ⟨0, 1, 0, 603/4⟩).amount_gross : ℚ) := by
  norm_num [buildReceipt, buildRecon, totalJPY, jsRound]

/-- C8 as amended: for identical inputs the receipt and the reconciliation
record agree exactly on the RID and on the net amount (round(gross - 35));
the reconciliation gross is the receipt gross rounded to an integer, and the
two grosses coincide whenever the receipt gross is a whole number.  Both
views are the same pure function of the inputs, hence deterministic. -/
theorem c8_artifact_consistency (jurisdiction : String) (year month day : Nat)
    (st : CheckoutState) :
    (buildReceipt jurisdiction year month day st).reconciliation_id =
      (buildRecon jurisdiction year month day st).rid ∧
    (buildReceipt jurisdiction year month day st).net_jpy =
      (buildRecon jurisdiction year month day st).amount_net ∧
    (buildRecon jurisdiction year month day st).amount_gross =
      jsRound ((buildReceipt jurisdiction year month day st).gross_jpy) ∧
    (∀ k : ℤ, (buildReceipt jurisdiction year month day st).gross_jpy = (k : ℚ) →
      ((buildRecon jurisdiction year month day st).amount_gross : ℚ) =
        (buildReceipt jurisdiction year month day st).gross_jpy) := by
  refine ⟨rfl, rfl, rfl, ?_⟩
  intro k hk
  show (jsRound (totalJPY st) : ℚ) = (buildReceipt jurisdiction year month day st).gross_jpy
  have hg : (buildReceipt jurisdiction year month day st).gross_jpy = totalJPY st := rfl
  rw [hg] at hk ⊢
  rw [hk]
  have hfl : ⌊(k : ℚ) + 1/2⌋ = k := by
    rw [add_comm, Int.floor_add_int]
    norm_num
  rw [jsRound, hfl]

/-- Witness for C8: at the default inputs the total 11515 is whole and the
two gross figures coincide. -/
theorem c8_artifact_consistency_witness :
    ((buildRecon "JP" 2025 8 27 ⟨8000, 20, 500, 603/4⟩).amount_gross : ℚ) =
      (buildReceipt "JP" 2025 8 27 ⟨8000, 20, 500, 603/4⟩).gross_jpy :=
  (c8_artifact_consistency "JP" 2025 8 27 ⟨8000, 20, 500, 603/4⟩).2.2.2 11515
    (by norm_num [buildReceipt, totalJPY, jsRound])

/-- The snapshot as a function of the component inputs: the jurisdiction
state variable is in scope but the computation reads only the hard-coded JP
rows, exactly as in App.tsx. -/
def appSnapshot (jurisdiction : String) : PolicySnapshot :=
  let _ := jurisdiction
  policyApplied POLICY_MATRIX

/-- The combined gate decision as a function of the component inputs,
composing the resolved snapshot, window, cap and quote-validity values as the
component does; jurisdiction is in scope but unread. -/
def appGate (jurisdiction : String) (total : ℚ) (hour minute : Nat)
    (quoteLocked : Bool) (quoteStartMs quoteRate : Option ℚ)
    (wallNowMs holdSec rateUSDCJPY slippageBps : ℚ) : GateReason :=
  gateMessageD (appSnapshot jurisdiction) total hour minute
    (holdValid quoteLocked quoteStartMs wallNowMs holdSec)
    (slippageValid quoteLocked quoteRate rateUSDCJPY slippageBps)

/-- C9: changing only the jurisdiction input never changes the resolved
snapshot (always the JP Tochika/USDC resolution) nor the gate decision; the
RID string, by contrast, does reflect the jurisdiction. -/
theorem c9_jurisdiction_noninterference (j1 j2 : String) (total : ℚ) (hour minute : Nat)
    (quoteLocked : Bool) (quoteStartMs quoteRate : Option ℚ)
    (wallNowMs holdSec rateUSDCJPY slippageBps : ℚ) :
    appSnapshot j1 = appSnapshot j2 ∧
    appSnapshot j1 = resolveSnapshot POLICY_MATRIX "JP" "Tochika" "USDC" ∧
    appGate j1 total hour minute quoteLocked quoteStartMs quoteRate wallNowMs holdSec
        rateUSDCJPY slippageBps =
      appGate j2 total hour minute quoteLocked quoteStartMs quoteRate wallNowMs holdSec
        rateUSDCJPY slippageBps ∧
    appRid "JP" 2025 8 27 ≠ appRid "HK" 2025 8 27 := by
  refine ⟨rfl, rfl, rfl, by decide⟩

/-- Optional chaining row?.allow === "ON" agrees with the truthiness form
(row && row.allow === "ON") used by the newer revision. -/
theorem rowAllowsOn_eq (o : Option PolicyRow) :
    rowAllowsOn o = (o.map (fun r => r.allow == "ON")).getD false := by
  cases o <;> rfl

/-- C10: with no quote locked, the current revision and the earlier revision
resolve identical policy snapshots and produce identical decisions (hence the
same approve/block outcome and the same blocked-reason category) for all
inputs. -/
theorem c10_revisions_agree (rows : List PolicyRow) (total : ℚ) (hour minute : Nat) :
    oldPolicyApplied rows = policyApplied rows ∧
    (∀ (quoteStartMs quoteRate : Option ℚ) (wallNowMs holdSec rateUSDCJPY slippageBps : ℚ),
      gateMessageD (policyApplied rows) total hour minute
          (holdValid false quoteStartMs wallNowMs holdSec)
          (slippageValid false quoteRate rateUSDCJPY slippageBps) =
        oldGateReasonD (oldPolicyApplied rows) total hour minute) := by
  have hsnap : oldPolicyApplied rows = policyApplied rows := by
    unfold oldPolicyApplied policyApplied resolveSnapshot
    simp [rowAllowsOn_eq]
  refine ⟨hsnap, ?_⟩
  intro qs qr wn hs rr sb
  have hhv : holdValid false qs wn hs = true := rfl
  have hsv : slippageValid false qr rr sb = true := rfl
  rw [hhv, hsv, hsnap]
  cases hp : policyOK (policyApplied rows) total hour minute with
  | true => simp [gateMessageD, oldGateReasonD, hp]
  | false => simp [gateMessageD, oldGateReasonD, hp]
